import Mathlib

/-!
Verification of the Auto-Adobe_RS script (src/main.rs) against its
natural-language specification.  The script computes a `date_expire`
string from the current date, logs in to a portal, and posts a
reservation request.  We embed the date-formatting logic (mirroring
Rust string formatting with sign-aware zero padding) and a trace model
of `main` parameterised by the environment, the current date, and an
HTTP oracle.
-/

/-- One decimal digit rendered as a character, `0 ≤ d ≤ 9` expected. -/
def digitChar (d : Nat) : Char := Char.ofNat (48 + d)

/-- Fuel-driven most-significant-first decimal rendering of a natural
number, as performed by Rust `format!` on an unsigned value. -/
def decDigitsAux : Nat → Nat → List Char
  | 0, _ => []
  | fuel + 1, n =>
    if n < 10 then [digitChar n]
    else decDigitsAux fuel (n / 10) ++ [digitChar (n % 10)]

/-- Decimal digits of `n`, most significant first. -/
def decDigits (n : Nat) : List Char := decDigitsAux (n + 1) n

/-- Left-pad a character list with zeros up to width `w`
(no-op when it is already at least `w` long). -/
def padZeros (w : Nat) (s : List Char) : List Char :=
  List.replicate (w - s.length) '0' ++ s

/-- Rust `format!("{:0w}", n)` for an unsigned integer. -/
def fmtNat (w n : Nat) : List Char := padZeros w (decDigits n)

/-- Rust `format!("{:0w}", i)` for a signed integer: the sign, when
present, counts towards the width and precedes the padding zeros. -/
def fmtInt (w : Nat) (i : Int) : List Char :=
  if i < 0 then '-' :: padZeros (w - 1) (decDigits i.natAbs)
  else padZeros w (decDigits i.natAbs)

/-- Embedding of `make_date_expire` from src/main.rs: if `month == 1`
the pair becomes `(year - 1, 12)`, otherwise `(year, month + 1)`, and
the result is `format!("{:04}-{:02}-01", new_year, new_month)`. -/
def make_date_expire (year : Int) (month : Nat) : String :=
  let p : Int × Nat := if month = 1 then (year - 1, 12) else (year, month + 1)
  String.mk (fmtInt 4 p.1 ++ '-' :: fmtNat 2 p.2 ++ ['-', '0', '1'])

-- URL and header constants from src/main.rs.

def LOGIN_URL : String := "https://software.kmutnb.ac.th/login/"

def ADOBE_PROCESS_URL : String :=
  "https://software.kmutnb.ac.th/adobe-reserve/processa.php"

def ADOBE_URL : String := "https://software.kmutnb.ac.th:443/adobe-reserve/add2.php"

def USER_AGENT_VALUE : String :=
  "Mozilla/5.0 (X11; Linux x86_64; rv:146.0) Gecko/20100101 Firefox/146.0"

def ORIGIN_VALUE : String := "https://software.kmutnb.ac.th"

/-- An outbound HTTP POST request: URL, header list, form-encoded body. -/
structure Request where
  url : String
  headers : List (String × String)
  form : List (String × String)
deriving Repr, DecidableEq

/-- An HTTP response as far as the script inspects it: status and body. -/
structure Response where
  status : Nat
  body : String
deriving Repr, DecidableEq

/-- Embedding of `build_login_headers` from src/main.rs. -/
def build_login_headers : List (String × String) :=
  [("Content-Type", "application/x-www-form-urlencoded"),
   ("User-Agent", USER_AGENT_VALUE),
   ("Origin", ORIGIN_VALUE),
   ("Referer", LOGIN_URL),
   ("Accept", "text/html,application/xhtml+xml,application/xml;q=0.9,*/*;q=0.8")]

/-- Embedding of `build_adobe_headers` from src/main.rs. -/
def build_adobe_headers : List (String × String) :=
  [("Content-Type", "application/x-www-form-urlencoded"),
   ("User-Agent", USER_AGENT_VALUE),
   ("Origin", ORIGIN_VALUE),
   ("Referer", ADOBE_PROCESS_URL)]

/-- The login request `main` sends: `LOGIN_URL`, login headers, and the
`login_data` form fields in source order. -/
def login_request (username password : String) : Request :=
  ⟨LOGIN_URL, build_login_headers,
   [("myusername", username), ("mypassword", password), ("Submit", "")]⟩

/-- The reservation request `main` sends: `ADOBE_URL`, adobe headers, and
the `adobe_data` form fields in source order. -/
def adobe_request (date_expire : String) : Request :=
  ⟨ADOBE_URL, build_adobe_headers,
   [("userId", ""), ("date_expire", date_expire),
    ("status_number", "0"), ("Submit_get", "")]⟩

/-- `reqwest::StatusCode::is_success`: status in the 2xx range. -/
def is_success (status : Nat) : Bool := 200 ≤ status && status < 300

/-- Observable outcome of one run of `main`: the requests actually sent
in order, whether the HTTP client builder was ever invoked, what was
printed to stdout, and the exit outcome (`Except.error` models the
panics and `Err` returns that end the process with non-zero status). -/
structure RunResult where
  trace : List Request
  builtClient : Bool
  printed : List String
  exit : Except String Unit
deriving Repr

/-- Embedding of `main` from src/main.rs, parameterised by the process
environment (after any .env loading), the current local date at start,
whether the client builder succeeds, and an HTTP transport oracle that
either fails (network error) or returns a response. -/
def main_run (env : String → Option String) (today_year : Int)
    (today_month : Nat) (clientOk : Bool)
    (http : Request → Except String Response) : RunResult :=
  match env "KMUTNB_USERNAME" with
  | none => ⟨[], false, [], Except.error "KMUTNB_USERNAME must be set"⟩
  | some username =>
    match env "KMUTNB_PASSWORD" with
    | none => ⟨[], false, [], Except.error "KMUTNB_PASSWORD must be set"⟩
    | some password =>
      let date_expire := make_date_expire today_year today_month
      if clientOk = false then
        ⟨[], true, [], Except.error "client build error"⟩
      else
        let login_req := login_request username password
        match http login_req with
        | Except.error e => ⟨[login_req], true, [], Except.error e⟩
        | Except.ok login_resp =>
          if is_success login_resp.status = false then
            ⟨[login_req], true, [],
             Except.error ("Login failed with status: " ++
               toString login_resp.status)⟩
          else
            let adobe_req := adobe_request date_expire
            match http adobe_req with
            | Except.error e =>
              ⟨[login_req, adobe_req], true, [], Except.error e⟩
            | Except.ok adobe_resp =>
              ⟨[login_req, adobe_req], true, [adobe_resp.body], Except.ok ()⟩

-- Spec-side definitions.  These follow the specification text
-- (section 4.1 and section 8 of spec.md), with the decimal digits of a
-- number taken from Mathlib's `Nat.digits`, independently of the
-- renderer embedded from the code.

/-- Spec-side decimal digit characters of `n`, most significant first,
via `Nat.digits`. -/
def specDigits (n : Nat) : List Char :=
  if n = 0 then ['0'] else (Nat.digits 10 n).reverse.map digitChar

/-- Spec-side zero-padded decimal rendering of a natural number. -/
def spec_format_nat (w n : Nat) : String :=
  String.mk (List.replicate (w - (specDigits n).length) '0' ++ specDigits n)

/-- Spec-side zero-padded decimal rendering of an integer; the sign
counts towards the width and precedes the padding zeros. -/
def spec_format_int (w : Nat) (i : Int) : String :=
  if i < 0 then
    String.mk
      ('-' :: (List.replicate (w - 1 - (specDigits i.natAbs).length) '0' ++
        specDigits i.natAbs))
  else spec_format_nat w i.natAbs

/-- The spec formula for months other than January:
the string `year-(month+1)-01`, zero-padded to 4 and 2 digits. -/
def spec_next_month_first_nonjan (year : Int) (m : Nat) : String :=
  spec_format_int 4 year ++ "-" ++ spec_format_nat 2 (m + 1) ++ "-01"

/-- The spec formula for January: the string `(year-1)-12-01`. -/
def spec_next_month_first_jan (year : Int) : String :=
  spec_format_int 4 (year - 1) ++ "-12-01"

/-- Full match of the fixed pattern `\d{4}-\d{2}-01` from the spec. -/
def matchesDatePattern (s : String) : Bool :=
  match s.data with
  | [a, b, c, d, e, f, g, h, i, j] =>
    a.isDigit && b.isDigit && c.isDigit && d.isDigit && (e == '-') &&
      f.isDigit && g.isDigit && (h == '-') && (i == '0') && (j == '1')
  | _ => false

/-- Drop the credential form fields of a request, keeping everything
else; two runs that agree after scrubbing leak credentials nowhere
outside those two fields. -/
def scrub_credentials (r : Request) : Request :=
  ⟨r.url, r.headers,
   r.form.filter (fun kv => !(kv.1 == "myusername") && !(kv.1 == "mypassword"))⟩

-- Lemmas about the digit renderers.

theorem decDigitsAux_eq (fuel : Nat) :
    ∀ n : Nat, 0 < n → n < 10 ^ fuel →
      decDigitsAux fuel n = (Nat.digits 10 n).reverse.map digitChar := by
  induction fuel with
  | zero =>
    intro n hn hlt
    simp at hlt
    omega
  | succ fuel ih =>
    intro n hn hlt
    rw [decDigitsAux]
    by_cases h10 : n < 10
    · rw [if_pos h10]
      rw [Nat.digits_def' (by norm_num : (1:Nat) < 10) hn]
      rw [Nat.div_eq_of_lt h10, Nat.mod_eq_of_lt h10]
      simp
    · rw [if_neg h10]
      have hdivpos : 0 < n / 10 := Nat.div_pos (Nat.le_of_not_lt h10) (by norm_num)
      have hdivlt : n / 10 < 10 ^ fuel := by
        rw [Nat.div_lt_iff_lt_mul (by norm_num : (0:Nat) < 10)]
        calc n < 10 ^ (fuel + 1) := hlt
        _ = 10 ^ fuel * 10 := by rw [pow_succ]
      rw [ih (n / 10) hdivpos hdivlt]
      rw [Nat.digits_def' (by norm_num : (1:Nat) < 10) hn]
      simp

theorem decDigits_eq_specDigits (n : Nat) : decDigits n = specDigits n := by
  by_cases h : n = 0
  · subst h
    decide
  · rw [specDigits, if_neg h, decDigits]
    exact decDigitsAux_eq (n + 1) n (Nat.pos_of_ne_zero h)
      (lt_of_lt_of_le (Nat.lt_pow_self (by norm_num) n)
        (Nat.pow_le_pow_right (by norm_num) (Nat.le_succ n)))

theorem digitChar_isDigit (d : Nat) (h : d < 10) : (digitChar d).isDigit = true := by
  interval_cases d <;> decide

theorem decDigitsAux_all_isDigit (fuel : Nat) :
    ∀ n : Nat, ∀ c ∈ decDigitsAux fuel n, c.isDigit = true := by
  induction fuel with
  | zero => intro n c hc; simp [decDigitsAux] at hc
  | succ fuel ih =>
    intro n c hc
    rw [decDigitsAux] at hc
    by_cases h10 : n < 10
    · rw [if_pos h10] at hc
      simp at hc
      subst hc
      exact digitChar_isDigit n h10
    · rw [if_neg h10] at hc
      rcases List.mem_append.mp hc with hmem | hmem
      · exact ih (n / 10) c hmem
      · simp at hmem
        subst hmem
        exact digitChar_isDigit (n % 10) (Nat.mod_lt n (by norm_num))

theorem decDigits_all_isDigit (n : Nat) :
    ∀ c ∈ decDigits n, c.isDigit = true :=
  decDigitsAux_all_isDigit (n + 1) n

theorem decDigitsAux_length_le (fuel : Nat) :
    ∀ n k : Nat, 1 ≤ k → n < 10 ^ k → (decDigitsAux fuel n).length ≤ k := by
  induction fuel with
  | zero => intro n k hk _; simp [decDigitsAux]
  | succ fuel ih =>
    intro n k hk hlt
    rw [decDigitsAux]
    by_cases h10 : n < 10
    · rw [if_pos h10]
      simpa using hk
    · rw [if_neg h10]
      have hk2 : 2 ≤ k := by
        by_contra hcon
        have hk1 : k = 1 := by omega
        subst hk1
        simp at hlt
        exact h10 hlt
      have hdivlt : n / 10 < 10 ^ (k - 1) := by
        rw [Nat.div_lt_iff_lt_mul (by norm_num : (0:Nat) < 10)]
        have hpow : 10 ^ (k - 1) * 10 = 10 ^ k := by
          rw [← pow_succ]
          congr 1
          omega
        omega
      have hrec := ih (n / 10) (k - 1) (by omega) hdivlt
      rw [List.length_append]
      simp
      omega

theorem decDigits_length_le (n k : Nat) (hk : 1 ≤ k) (h : n < 10 ^ k) :
    (decDigits n).length ≤ k :=
  decDigitsAux_length_le (n + 1) n k hk h

theorem padZeros_length (w : Nat) (s : List Char) (h : s.length ≤ w) :
    (padZeros w s).length = w := by
  simp [padZeros]
  omega

theorem padZeros_all_isDigit (w : Nat) (s : List Char)
    (h : ∀ c ∈ s, c.isDigit = true) :
    ∀ c ∈ padZeros w s, c.isDigit = true := by
  intro c hc
  rcases List.mem_append.mp hc with hmem | hmem
  · rw [List.eq_of_mem_replicate hmem]
    decide
  · exact h c hmem

theorem spec_format_nat_data (w n : Nat) :
    (spec_format_nat w n).data = fmtNat w n := by
  rw [spec_format_nat, fmtNat, padZeros, decDigits_eq_specDigits]

theorem spec_format_int_data (w : Nat) (i : Int) :
    (spec_format_int w i).data = fmtInt w i := by
  rw [spec_format_int, fmtInt]
  by_cases h : i < 0
  · rw [if_pos h, if_pos h, padZeros, decDigits_eq_specDigits]
  · rw [if_neg h, if_neg h, spec_format_nat_data, fmtNat]

theorem dash_data : ("-" : String).data = ['-'] := rfl

theorem dash01_data : ("-01" : String).data = ['-', '0', '1'] := rfl

theorem dash1201_data :
    ("-12-01" : String).data = ['-', '1', '2', '-', '0', '1'] := rfl

theorem matchesDatePattern_intro (ys ms : List Char) (s : String)
    (hys : ys.length = 4) (hysd : ∀ c ∈ ys, c.isDigit = true)
    (hms : ms.length = 2) (hmsd : ∀ c ∈ ms, c.isDigit = true)
    (hs : s.data = ys ++ '-' :: (ms ++ ['-', '0', '1'])) :
    matchesDatePattern s = true := by
  rcases ys with _ | ⟨a, _ | ⟨b, _ | ⟨c, _ | ⟨d, _ | ⟨x, xs⟩⟩⟩⟩⟩ <;> simp at hys
  rcases ms with _ | ⟨e, _ | ⟨f, _ | ⟨y, ms⟩⟩⟩ <;> simp at hms
  simp only [List.mem_cons, List.not_mem_nil] at hysd hmsd
  rw [matchesDatePattern, hs]
  simp only [List.cons_append, List.nil_append]
  simp [hysd a (by tauto), hysd b (by tauto), hysd c (by tauto),
    hysd d (by tauto), hmsd e (by tauto), hmsd f (by tauto)]

theorem fmtInt_four (i : Int) (h0 : 0 ≤ i) (h : i ≤ 9999) :
    (fmtInt 4 i).length = 4 ∧ ∀ c ∈ fmtInt 4 i, c.isDigit = true := by
  rw [fmtInt, if_neg (by omega : ¬ i < 0)]
  refine ⟨?_, padZeros_all_isDigit _ _ (decDigits_all_isDigit _)⟩
  apply padZeros_length
  apply decDigits_length_le _ 4 (by norm_num)
  have h4 : (10:Nat) ^ 4 = 10000 := by norm_num
  omega

theorem fmtNat_two (n : Nat) (h : n ≤ 99) :
    (fmtNat 2 n).length = 2 ∧ ∀ c ∈ fmtNat 2 n, c.isDigit = true := by
  rw [fmtNat]
  refine ⟨?_, padZeros_all_isDigit _ _ (decDigits_all_isDigit _)⟩
  apply padZeros_length
  apply decDigits_length_le _ 2 (by norm_num)
  have h2 : (10:Nat) ^ 2 = 100 := by norm_num
  omega

/-- Core refinement for any non-January month (no bound on `m`): the
code's output equals the spec formula `year-(m+1)-01`. -/
theorem make_date_expire_nonjan (year : Int) (m : Nat) (hm : m ≠ 1) :
    make_date_expire year m = spec_next_month_first_nonjan year m := by
  apply String.ext
  rw [spec_next_month_first_nonjan, String.data_append, String.data_append,
    String.data_append, spec_format_int_data, spec_format_nat_data,
    dash_data, dash01_data]
  simp only [make_date_expire, if_neg hm]
  simp [List.append_assoc]

/-- C1: for every year and every month `m` with `2 ≤ m ≤ 12`,
`make_date_expire year m` is exactly the spec string
`{year:04}-{m+1:02}-01` — the year unchanged, the month incremented and
zero-padded to two digits, the day fixed at 01 (so month 12 yields the
month component "13"). -/
theorem claim_C1_nonjan_formula (year : Int) (m : Nat)
    (h2 : 2 ≤ m) (h12 : m ≤ 12) :
    make_date_expire year m = spec_next_month_first_nonjan year m :=
  make_date_expire_nonjan year m (by omega)

theorem claim_C1_witness :
    2 ≤ 12 ∧ (12 : Nat) ≤ 12 ∧
      make_date_expire 2024 12 = spec_next_month_first_nonjan 2024 12 ∧
      make_date_expire 2024 12 = "2024-13-01" :=
  ⟨by decide, by decide,
   claim_C1_nonjan_formula 2024 12 (by decide) (by decide), by decide⟩

/-- C2: for every year, `make_date_expire year 1` is the spec string
`(year-1)-12-01`: January maps to December of the previous year. -/
theorem claim_C2_january_formula (year : Int) :
    make_date_expire year 1 = spec_next_month_first_jan year := by
  apply String.ext
  rw [spec_next_month_first_jan, String.data_append, spec_format_int_data,
    dash1201_data]
  have h12 : fmtNat 2 12 = ['1', '2'] := by decide
  simp [make_date_expire, h12]

/-- C4 counterexample: the claim quantifies over every signed year, but
at year `-1`, month `2` the output is "-001-03-01", which does not match
the pattern `\d{4}-\d{2}-01` (the year field carries a minus sign). -/
theorem claim_C4_counterexample :
    matchesDatePattern (make_date_expire (-1) 2) = false ∧
      make_date_expire (-1) 2 = "-001-03-01" := by decide

/-- C4 (amended): for every year with `1 ≤ year ≤ 9999` and every month
1–12, the output matches the fixed pattern `\d{4}-\d{2}-01`.  (Outside
that year range the four-digit-year part of the pattern fails: negative
adjusted years print a sign, years above 9999 print five digits.) -/
theorem claim_C4_pattern (year : Int) (month : Nat)
    (hy1 : 1 ≤ year) (hy2 : year ≤ 9999)
    (hm1 : 1 ≤ month) (hm2 : month ≤ 12) :
    matchesDatePattern (make_date_expire year month) = true := by
  by_cases hm : month = 1
  · subst hm
    have hy := fmtInt_four (year - 1) (by omega) (by omega)
    have hmn := fmtNat_two 12 (by norm_num)
    exact matchesDatePattern_intro _ _ _ hy.1 hy.2 hmn.1 hmn.2
      (by simp [make_date_expire, List.append_assoc])
  · have hy := fmtInt_four year (by omega) (by omega)
    have hmn := fmtNat_two (month + 1) (by omega)
    exact matchesDatePattern_intro _ _ _ hy.1 hy.2 hmn.1 hmn.2
      (by simp [make_date_expire, if_neg hm, List.append_assoc])

theorem claim_C4_witness :
    (1 : Int) ≤ 2024 ∧ (2024 : Int) ≤ 9999 ∧ (1 : Nat) ≤ 1 ∧ (1 : Nat) ≤ 12 ∧
      matchesDatePattern (make_date_expire 2024 1) = true :=
  ⟨by decide, by decide, by decide, by decide,
   claim_C4_pattern 2024 1 (by decide) (by decide) (by decide) (by decide)⟩

/-- C5 counterexample: called with month 13 (outside 1–12) the function
does not reject the input; it returns the formatted date string
"2024-14-01", which even matches the usual output pattern. -/
theorem claim_C5_counterexample :
    make_date_expire 2024 13 = "2024-14-01" ∧
      matchesDatePattern (make_date_expire 2024 13) = true := by decide

/-- C5 (amended): `make_date_expire` performs no bounds validation.  For
any month outside 1–12 it still returns the ordinary formatted string,
treating the month like any non-January month: the result is the spec
formula `year-(month+1)-01` (month 0 yields `..-01-01`, month 13 yields
`..-14-01`). -/
theorem claim_C5_no_validation (year : Int) (m : Nat)
    (h : ¬ (1 ≤ m ∧ m ≤ 12)) :
    make_date_expire year m = spec_next_month_first_nonjan year m :=
  make_date_expire_nonjan year m (by omega)

theorem claim_C5_witness :
    ¬ ((1 : Nat) ≤ 13 ∧ (13 : Nat) ≤ 12) ∧
      make_date_expire 2024 13 = spec_next_month_first_nonjan 2024 13 :=
  ⟨by decide, claim_C5_no_validation 2024 13 (by decide)⟩

/-- C9: `make_date_expire` is a pure function of its arguments — two
calls with identical arguments return identical strings. -/
theorem claim_C9_deterministic (y1 y2 : Int) (m1 m2 : Nat)
    (hy : y1 = y2) (hm : m1 = m2) :
    make_date_expire y1 m1 = make_date_expire y2 m2 := by
  rw [hy, hm]

theorem claim_C9_witness :
    (2024 : Int) = 2024 ∧ (6 : Nat) = 6 ∧
      make_date_expire 2024 6 = make_date_expire 2024 6 :=
  ⟨rfl, rfl, claim_C9_deterministic 2024 2024 6 6 rfl rfl⟩

/-- C3: when the login response carries a non-2xx status, the
reservation POST to `ADOBE_URL` is never issued — the trace consists of
the login request alone — and the run terminates with an error naming
the login status code. -/
theorem claim_C3_login_gate (env : String → Option String) (y : Int)
    (m : Nat) (http : Request → Except String Response) (u p : String)
    (resp : Response)
    (hu : env "KMUTNB_USERNAME" = some u)
    (hp : env "KMUTNB_PASSWORD" = some p)
    (hlogin : http (login_request u p) = Except.ok resp)
    (hfail : is_success resp.status = false) :
    (main_run env y m true http).trace = [login_request u p] ∧
      (∀ r ∈ (main_run env y m true http).trace, r.url ≠ ADOBE_URL) ∧
      (main_run env y m true http).exit =
        Except.error ("Login failed with status: " ++ toString resp.status) := by
  rw [main_run, hu, hp]
  simp only [hlogin, hfail]
  refine ⟨?_, ?_, ?_⟩ <;> simp [login_request, LOGIN_URL, ADOBE_URL]

theorem claim_C3_witness :
    (main_run (fun _ => some "alice") 2024 6 true
        (fun _ => Except.ok ⟨403, "denied"⟩)).trace =
      [login_request "alice" "alice"] ∧
      (∀ r ∈ (main_run (fun _ => some "alice") 2024 6 true
        (fun _ => Except.ok ⟨403, "denied"⟩)).trace, r.url ≠ ADOBE_URL) ∧
      (main_run (fun _ => some "alice") 2024 6 true
        (fun _ => Except.ok ⟨403, "denied"⟩)).exit =
        Except.error ("Login failed with status: " ++ toString (403 : Nat)) :=
  claim_C3_login_gate (fun _ => some "alice") 2024 6
    (fun _ => Except.ok ⟨403, "denied"⟩) "alice" "alice" ⟨403, "denied"⟩
    rfl rfl rfl (by decide)

/-- C6: when the login succeeds, the run issues exactly the login
request followed by the reservation POST to `ADOBE_URL`, whose form
body is exactly `userId` (empty), `date_expire` (the value computed by
`make_date_expire` from the process-start date), `status_number` "0",
and `Submit_get` (empty). -/
theorem claim_C6_reservation_form (env : String → Option String) (y : Int)
    (m : Nat) (http : Request → Except String Response) (u p : String)
    (resp : Response)
    (hu : env "KMUTNB_USERNAME" = some u)
    (hp : env "KMUTNB_PASSWORD" = some p)
    (hlogin : http (login_request u p) = Except.ok resp)
    (hsucc : is_success resp.status = true) :
    (main_run env y m true http).trace =
      [login_request u p, adobe_request (make_date_expire y m)] ∧
      (adobe_request (make_date_expire y m)).form =
        [("userId", ""), ("date_expire", make_date_expire y m),
         ("status_number", "0"), ("Submit_get", "")] := by
  constructor
  · rw [main_run, hu, hp]
    cases hA : http (adobe_request (make_date_expire y m)) <;>
      simp [hlogin, hsucc, hA]
  · rfl

theorem claim_C6_witness :
    (main_run (fun _ => some "alice") 2024 6 true
        (fun _ => Except.ok ⟨200, "ok"⟩)).trace =
      [login_request "alice" "alice",
       adobe_request (make_date_expire 2024 6)] ∧
      (adobe_request (make_date_expire 2024 6)).form =
        [("userId", ""), ("date_expire", make_date_expire 2024 6),
         ("status_number", "0"), ("Submit_get", "")] :=
  claim_C6_reservation_form (fun _ => some "alice") 2024 6
    (fun _ => Except.ok ⟨200, "ok"⟩) "alice" "alice" ⟨200, "ok"⟩
    rfl rfl rfl (by decide)

/-- C7: the reservation headers set the Referer to the intermediate
processing URL, which differs from the endpoint the request is posted
to, and also carry Content-Type, User-Agent and Origin; the reservation
request uses exactly these headers. -/
theorem claim_C7_referer :
    ("Referer", ADOBE_PROCESS_URL) ∈ build_adobe_headers ∧
      ADOBE_PROCESS_URL ≠ ADOBE_URL ∧
      ("Content-Type", "application/x-www-form-urlencoded") ∈
        build_adobe_headers ∧
      ("User-Agent", USER_AGENT_VALUE) ∈ build_adobe_headers ∧
      ("Origin", ORIGIN_VALUE) ∈ build_adobe_headers ∧
      ∀ d : String, (adobe_request d).headers = build_adobe_headers :=
  ⟨by decide, by decide, by decide, by decide, by decide, fun d => rfl⟩

/-- C8: if either credential environment variable is unset, the run
terminates with a descriptive error before the HTTP client is built and
before any request is sent: the trace is empty, the client builder was
never invoked, and the exit is the corresponding error — independently
of the client builder outcome and the network. -/
theorem claim_C8_missing_env (env : String → Option String) (y : Int)
    (m : Nat) (clientOk : Bool) (http : Request → Except String Response)
    (h : env "KMUTNB_USERNAME" = none ∨ env "KMUTNB_PASSWORD" = none) :
    (main_run env y m clientOk http).trace = [] ∧
      (main_run env y m clientOk http).builtClient = false ∧
      ((main_run env y m clientOk http).exit =
          Except.error "KMUTNB_USERNAME must be set" ∨
        (main_run env y m clientOk http).exit =
          Except.error "KMUTNB_PASSWORD must be set") := by
  rcases h with h | h
  · rw [main_run, h]
    simp
  · cases henv : env "KMUTNB_USERNAME" <;> rw [main_run, henv] <;> simp [h]

theorem claim_C8_witness :
    ((fun _ : String => (none : Option String)) "KMUTNB_USERNAME" = none ∨
      (fun _ : String => (none : Option String)) "KMUTNB_PASSWORD" = none) ∧
      (main_run (fun _ => none) 2024 6 true
        (fun _ => Except.ok ⟨200, "ok"⟩)).trace = [] ∧
      (main_run (fun _ => none) 2024 6 true
        (fun _ => Except.ok ⟨200, "ok"⟩)).builtClient = false ∧
      ((main_run (fun _ => none) 2024 6 true
          (fun _ => Except.ok ⟨200, "ok"⟩)).exit =
          Except.error "KMUTNB_USERNAME must be set" ∨
        (main_run (fun _ => none) 2024 6 true
          (fun _ => Except.ok ⟨200, "ok"⟩)).exit =
          Except.error "KMUTNB_PASSWORD must be set") :=
  ⟨Or.inl rfl,
   claim_C8_missing_env (fun _ => none) 2024 6 true
     (fun _ => Except.ok ⟨200, "ok"⟩) (Or.inl rfl)⟩

/-- Scrubbing the two credential fields from the login request leaves a
request independent of the username and password. -/
theorem scrub_login_request (u p : String) :
    scrub_credentials (login_request u p) =
      ⟨LOGIN_URL, build_login_headers, [("Submit", "")]⟩ := rfl

/-- C10: the reservation request does not depend on the credentials.
Two runs that differ only in the credential values (same date, any
transports that accept the respective logins) send the same reservation
request — their traces agree from the second request on — and agree
everywhere once the two credential form fields of the login request are
scrubbed: the username and password flow only into those two fields. -/
theorem claim_C10_noninterference (env1 env2 : String → Option String)
    (y : Int) (m : Nat) (http1 http2 : Request → Except String Response)
    (u1 p1 u2 p2 : String) (resp1 resp2 : Response)
    (hu1 : env1 "KMUTNB_USERNAME" = some u1)
    (hp1 : env1 "KMUTNB_PASSWORD" = some p1)
    (hu2 : env2 "KMUTNB_USERNAME" = some u2)
    (hp2 : env2 "KMUTNB_PASSWORD" = some p2)
    (hl1 : http1 (login_request u1 p1) = Except.ok resp1)
    (hl2 : http2 (login_request u2 p2) = Except.ok resp2)
    (hs1 : is_success resp1.status = true)
    (hs2 : is_success resp2.status = true) :
    (main_run env1 y m true http1).trace.drop 1 =
      (main_run env2 y m true http2).trace.drop 1 ∧
      (main_run env1 y m true http1).trace.map scrub_credentials =
        (main_run env2 y m true http2).trace.map scrub_credentials := by
  have ht1 : (main_run env1 y m true http1).trace =
      [login_request u1 p1, adobe_request (make_date_expire y m)] := by
    rw [main_run, hu1, hp1]
    cases hA : http1 (adobe_request (make_date_expire y m)) <;>
      simp [hl1, hs1, hA]
  have ht2 : (main_run env2 y m true http2).trace =
      [login_request u2 p2, adobe_request (make_date_expire y m)] := by
    rw [main_run, hu2, hp2]
    cases hA : http2 (adobe_request (make_date_expire y m)) <;>
      simp [hl2, hs2, hA]
  rw [ht1, ht2]
  refine ⟨rfl, ?_⟩
  simp only [List.map_cons, List.map_nil,
    scrub_login_request u1 p1, scrub_login_request u2 p2]

theorem claim_C10_witness :
    (main_run (fun _ => some "alice") 2024 6 true
        (fun _ => Except.ok ⟨200, "body1"⟩)).trace.drop 1 =
      (main_run (fun _ => some "bob") 2024 6 true
        (fun _ => Except.ok ⟨204, "body2"⟩)).trace.drop 1 ∧
      (main_run (fun _ => some "alice") 2024 6 true
        (fun _ => Except.ok ⟨200, "body1"⟩)).trace.map scrub_credentials =
        (main_run (fun _ => some "bob") 2024 6 true
          (fun _ => Except.ok ⟨204, "body2"⟩)).trace.map scrub_credentials :=
  claim_C10_noninterference (fun _ => some "alice") (fun _ => some "bob")
    2024 6 (fun _ => Except.ok ⟨200, "body1"⟩)
    (fun _ => Except.ok ⟨204, "body2"⟩) "alice" "alice" "bob" "bob"
    ⟨200, "body1"⟩ ⟨204, "body2"⟩ rfl rfl rfl rfl rfl rfl
    (by decide) (by decide)
